import Mathlib

/-!
Shallow embedding of the pyff fantasy-football projection tool
(src/pyff/caching.py, teams.py, html_parsing.py, user_prompting.py,
skill_player.py, cli.py) and verification of the frozen claims about it.

Python floats are modelled as exact rationals; Python exceptions as
Except results; the filesystem and the network as explicit function
arguments; I/O side effects as explicit event traces.
-/

namespace Pyff

/-- An HTTP response: status code and body text (requests.Response). -/
structure Response where
  status_code : Nat
  text : String
deriving Repr, DecidableEq

/-- Observable side effects of the program, in the order they happen. -/
inductive Event where
  | httpGet (url : String)
  | sleepSec (n : Nat)
  | checkStatus (code : Nat)
  | readFile (path : List String)
  | writeFile (path : List String) (contents : String)
  | parseHtml (contents : String)
deriving Repr, DecidableEq

/-- True exactly on httpGet events. -/
def Event.isGet : Event → Bool
  | Event.httpGet _ => true
  | _ => false

/-- The HTTPError message raised by caching.handle_request. -/
def httpErrorMsg (code : Nat) : String :=
  "Request unsuccessful. Response code: " ++ toString code

/-- caching.handle_request (caching.py lines 36-45): issue requests.get,
sleep 6 seconds, then raise HTTPError when the status code is not 200,
else return the response.  The network is modelled by the response the
URL yields; the trace records the effects in program order. -/
def handle_request (url : String) (resp : Response) :
    List Event × Except String Response :=
  ([Event.httpGet url, Event.sleepSec 6, Event.checkStatus resp.status_code],
   if resp.status_code ≠ 200 then
     Except.error (httpErrorMsg resp.status_code)
   else
     Except.ok resp)

/-- The inline fetch pattern of quarterback.py QB.__init__ (lines 59-64 and
153-159) and positions.py: requests.get, time.sleep(6), status check.  It is
textually identical to handle_request's body. -/
def inline_fetch (url : String) (resp : Response) :
    List Event × Except String Response :=
  ([Event.httpGet url, Event.sleepSec 6, Event.checkStatus resp.status_code],
   if resp.status_code ≠ 200 then
     Except.error (httpErrorMsg resp.status_code)
   else
     Except.ok resp)

/-- A filesystem: maps a path to the cached file contents when the file exists. -/
def FS : Type := List String → Option String

/-- CACHE_DIR = Path.home() / ".pyff" (caching.py line 7); the home directory
is modelled as the abstract root component. -/
def CACHE_DIR : List String := ["~", ".pyff"]

/-- The cache path CACHE_DIR/team/team_year.html used by Team.__init__. -/
def teamPagePath (team : String) (year : Nat) : List String :=
  CACHE_DIR ++ [team, "team_" ++ toString year ++ ".html"]

/-- The team page URL fetched by Team.__init__ (teams.py line 64). -/
def teamPageUrl (team : String) (year : Nat) : String :=
  "https://pro-football-reference.com/teams/" ++ team ++ "/" ++ toString year ++ ".htm"

/-- The cache path CACHE_DIR/team/roster_year.html used by Team.get_player. -/
def rosterPath (team : String) (year : Nat) : List String :=
  CACHE_DIR ++ [team, "roster_" ++ toString year ++ ".html"]

/-- The roster URL fetched by Team.get_player (teams.py line 216). -/
def rosterUrl (team : String) (year : Nat) : String :=
  "https://pro-football-reference.com/teams/" ++ team ++ "/" ++ toString year ++ "_roster.htm"

/-- The read-if-exists / else-fetch-and-write page acquisition shared by
Team.__init__ (teams.py lines 55-73) and Team.get_player (lines 205-227):
if use_cache and the cache file exists, read it and parse; otherwise call
handle_request, write the body to the cache path when save_results, then
parse the body.  Returns the trace and the page contents (or the
propagated HTTPError). -/
def fetchOrCache (fs : FS) (net : String → Response) (use_cache save_results : Bool)
    (path : List String) (url : String) : List Event × Except String String :=
  match use_cache, fs path with
  | true, some contents =>
      ([Event.readFile path, Event.parseHtml contents], Except.ok contents)
  | _, _ =>
      match handle_request url (net url) with
      | (tr, Except.error e) => (tr, Except.error e)
      | (tr, Except.ok r) =>
          if save_results then
            (tr ++ [Event.writeFile path r.text, Event.parseHtml r.text],
             Except.ok r.text)
          else
            (tr ++ [Event.parseHtml r.text], Except.ok r.text)

/-- The four seasons processed by Team.__init__: the last three plus the
current one (pd.Index(range(current_year - 3, current_year + 1))). -/
def teamYears (current_year : Nat) : List Nat :=
  List.range' (current_year - 3) 4

/-- The per-year page acquisitions performed by Team.__init__, in year order. -/
def teamInitAcquire (fs : FS) (net : String → Response) (use_cache save_results : Bool)
    (team : String) (current_year : Nat) :
    List (Nat × (List Event × Except String String)) :=
  (teamYears current_year).map (fun year =>
    (year, fetchOrCache fs net use_cache save_results
      (teamPagePath team year) (teamPageUrl team year)))

/-- The roster page acquisition performed by Team.get_player. -/
def getPlayerAcquire (fs : FS) (net : String → Response) (use_cache save_results : Bool)
    (team : String) (current_year : Nat) : List Event × Except String String :=
  fetchOrCache fs net use_cache save_results
    (rosterPath team current_year) (rosterUrl team current_year)

/-- The caching discipline of one fetchOrCache acquisition: a cache hit with
use_cache reads the file, issues no network request and returns the cached
contents; otherwise the page is fetched and, on success, the body is written
to exactly the given cache path (when save_results) at a trace position
strictly before the parse, and no write happens when save_results is false. -/
def CacheDiscipline (fs : FS) (net : String → Response) (use_cache save_results : Bool)
    (path : List String) (url : String) : Prop :=
  (use_cache = true → ∀ contents, fs path = some contents →
      (fetchOrCache fs net use_cache save_results path url).2 = Except.ok contents ∧
      (∀ u, Event.httpGet u ∉ (fetchOrCache fs net use_cache save_results path url).1) ∧
      Event.readFile path ∈ (fetchOrCache fs net use_cache save_results path url).1) ∧
  ((use_cache = false ∨ fs path = none) →
      Event.httpGet url ∈ (fetchOrCache fs net use_cache save_results path url).1 ∧
      (∀ body, (fetchOrCache fs net use_cache save_results path url).2 = Except.ok body →
        (save_results = true →
          ∃ i j, i < j ∧
            (fetchOrCache fs net use_cache save_results path url).1.get? i
              = some (Event.writeFile path body) ∧
            (fetchOrCache fs net use_cache save_results path url).1.get? j
              = some (Event.parseHtml body)) ∧
        (save_results = false →
          ∀ p c, Event.writeFile p c ∉ (fetchOrCache fs net use_cache save_results path url).1)))

/-- A filesystem for concrete evaluation: one cached team page for crd/2024. -/
def fsOneTeamPage : FS := fun p =>
  if p = teamPagePath "crd" 2024 then some "cachedpage" else none

/-- A network for concrete evaluation: every URL answers 200 with body "body". -/
def netAll200 : String → Response := fun _ => { status_code := 200, text := "body" }

/-- Python round-half-to-even of a rational to the nearest integer, the tie
rule of the built-in round().  Python rounds the binary double; doubles are
modelled as exact rationals throughout. -/
def roundHalfEven (x : ℚ) : ℤ :=
  let n := ⌊x⌋
  let f := x - n
  if f < 1/2 then n
  else if 1/2 < f then n + 1
  else if Even n then n else n + 1

/-- round(x, 2): round-half-to-even at two decimal places. -/
def pyRound2 (x : ℚ) : ℚ := (roundHalfEven (x * 100) : ℚ) / 100

/-- The derived team statistics stored for one past season. -/
structure YearTeamStats where
  total_plays : Int
  run_percent : ℚ
  pass_percent : ℚ
  run_plays : Int
  pass_plays : Int
deriving Repr, DecidableEq

/-- The past-year statistics computation of Team.__init__ (teams.py lines
78-97) on the parsed rushing and passing attempts: total_plays is their sum,
run_percent is round(run_plays / total_plays * 100, 2) and pass_percent is
round(pass_plays / total_plays * 100, 2).  Python integer division by zero
raises ZeroDivisionError, so the computation is fallible. -/
def teamYearStats (run_plays pass_plays : Int) : Except String YearTeamStats :=
  let total := run_plays + pass_plays
  if total = 0 then Except.error "ZeroDivisionError"
  else Except.ok
    { total_plays := total
      run_percent := pyRound2 ((run_plays : ℚ) / (total : ℚ) * 100)
      pass_percent := pyRound2 ((pass_plays : ℚ) / (total : ℚ) * 100)
      run_plays := run_plays
      pass_plays := pass_plays }

/-- str.capitalize(): first character uppercased, the rest lowercased. -/
def pyCapitalize (s : String) : String :=
  match s.data with
  | [] => ""
  | c :: rest => String.mk (c.toUpper :: rest.map Char.toLower)

/-- A row of a team-level projection sheet; the claims constrain the three
columns written by Team.save_projections, so only those are modelled. -/
structure ProjRow where
  total_plays : Option ℚ
  run_plays : Option ℚ
  pass_plays : Option ℚ
deriving Repr, DecidableEq

/-- A spreadsheet workbook: sheet name to rows, when the sheet exists. -/
def Workbook : Type := String → Option (List ProjRow)

/-- The projection state asserted by Team.save_projections (teams.py lines
150-152): team name plus the three integers set by Team.project. -/
structure TeamProjState where
  team_name : String
  total_plays : Int
  run_percent : Int
  pass_percent : Int

/-- The row appended by Team.save_projections (teams.py lines 169-176):
Total Plays, Run Plays = round(total_plays * run_percent / 100, 2) and
Pass Plays = round(total_plays * pass_percent / 100, 2). -/
def newProjRow (st : TeamProjState) : ProjRow :=
  { total_plays := some (st.total_plays : ℚ)
    run_plays := some (pyRound2 ((st.total_plays : ℚ) * (st.run_percent : ℚ) / 100))
    pass_plays := some (pyRound2 ((st.total_plays : ℚ) * (st.pass_percent : ℚ) / 100)) }

/-- Team.save_projections (teams.py lines 148-195).  The spreadsheet file is
an Option Workbook (none: the file does not exist yet; openpyxl's fresh
Workbook() carries a default sheet named Sheet).  A missing team sheet is
created empty; the formatted row is appended after the existing rows when the
sheet has any (pd.concat), else written alone; the write replaces only the
team's sheet (if_sheet_exists replace). -/
def save_projections (file : Option Workbook) (st : TeamProjState) : Workbook :=
  let sheet := pyCapitalize st.team_name
  let row := newProjRow st
  match file with
  | none =>
      let wb : Workbook := fun s =>
        if s = sheet ∨ s = "Sheet" then some [] else none
      fun s => if s = sheet then some [row] else wb s
  | some wb0 =>
      let wb1 : Workbook := fun s =>
        if s = sheet then some ((wb0 sheet).getD []) else wb0 s
      let existing := (wb1 sheet).getD []
      if existing.length + 1 > 1 then
        fun s => if s = sheet then some (existing ++ [row]) else wb1 s
      else
        fun s => if s = sheet then some [row] else wb1 s

/-- A workbook for concrete evaluation: sheet Crd with one row, sheet Sea empty. -/
def wbTwoSheets : Workbook := fun s =>
  if s = "Crd" then some [{ total_plays := some 400, run_plays := some 150, pass_plays := some 250 }]
  else if s = "Sea" then some [] else none

/-- An HTML element inside a table row: its data-stat attribute and its text
(bs4 Tag restricted to what fetch_data_stat reads). -/
structure Cell where
  data_stat : String
  text : String
deriving Repr, DecidableEq

/-- The stat_dtype argument of fetch_data_stat: str, int or float. -/
inductive DType where
  | str
  | int
  | float
deriving Repr, DecidableEq

/-- A Python value fetch_data_stat can produce: a string, an int, a float
(modelled as a rational) or the HTML tag itself. -/
inductive StatValue where
  | strVal (s : String)
  | intVal (n : Int)
  | floatVal (q : ℚ)
  | htmlTag (c : Cell)
deriving Repr, DecidableEq

/-- The numeric value of a list of decimal digit characters. -/
def digitsVal (l : List Char) : Nat :=
  l.foldl (fun acc c => 10 * acc + (c.toNat - 48)) 0

/-- The numeric value of a nonempty list of decimal digit characters. -/
def digitsToNat? (l : List Char) : Option Nat :=
  if l ≠ [] ∧ l.all Char.isDigit then some (digitsVal l) else none

/-- int(s): optional sign followed by digits.  Whitespace stripping and
underscore separators of the real int() are not modelled; no claim depends
on them. -/
def pyInt (s : String) : Option Int :=
  match s.data with
  | '-' :: rest => (digitsToNat? rest).map (fun n => -(n : Int))
  | '+' :: rest => (digitsToNat? rest).map (fun n => (n : Int))
  | l => (digitsToNat? l).map (fun n => (n : Int))

/-- The value of digits on both sides of a decimal point. -/
def decimalValue? (intPart fracPart : List Char) : Option ℚ :=
  if (intPart ≠ [] ∨ fracPart ≠ []) ∧ intPart.all Char.isDigit ∧ fracPart.all Char.isDigit then
    some ((digitsVal intPart : ℚ) + (digitsVal fracPart : ℚ) / (10 : ℚ) ^ fracPart.length)
  else none

/-- float(s) on plain decimal notation: optional sign, digits, optional
point, digits.  Exponents, inf and nan of the real float() are not
modelled; no claim depends on them. -/
def pyFloat (s : String) : Option ℚ :=
  let body := fun (l : List Char) =>
    match l.span Char.isDigit with
    | (intPart, []) => decimalValue? intPart []
    | (intPart, '.' :: fracPart) => decimalValue? intPart fracPart
    | _ => none
  match s.data with
  | '-' :: rest => (body rest).map (fun q => -q)
  | '+' :: rest => body rest
  | l => body l

/-- stat_dtype(stat_value): the type conversion fetch_data_stat applies,
none when the Python conversion raises ValueError. -/
def convert (d : DType) (s : String) : Option StatValue :=
  match d with
  | DType.str => some (StatValue.strVal s)
  | DType.int => (pyInt s).map StatValue.intVal
  | DType.float => (pyFloat s).map StatValue.floatVal

/-- html_parsing.fetch_data_stat (html_parsing.py lines 23-64): find the
first element of the row whose data-stat attribute equals
stat_html_attribute; return the default when there is none; return the tag
itself when return_html; return the default when the text is empty and the
dtype is numeric; otherwise convert the text, re-raising the ValueError when
the conversion fails.  (The code's stat_value-is-None check on line 45 is
unreachable: get_text() always returns a string.) -/
def fetch_data_stat (row : List Cell) (stat_html_attribute : String)
    (stat_default_value : StatValue) (stat_dtype : DType) (return_html : Bool) :
    Except String StatValue :=
  match row.find? (fun c => c.data_stat = stat_html_attribute) with
  | none => Except.ok stat_default_value
  | some stat_html =>
      if return_html then Except.ok (StatValue.htmlTag stat_html)
      else
        let stat_value := stat_html.text
        if stat_value = "" ∧ (stat_dtype = DType.int ∨ stat_dtype = DType.float) then
          Except.ok stat_default_value
        else
          match convert stat_dtype stat_value with
          | some v => Except.ok v
          | none => Except.error "ValueError"

/-- Python division, which raises ZeroDivisionError on a zero divisor. -/
def pyDiv (a b : ℚ) : Except String ℚ :=
  if b = 0 then Except.error "ZeroDivisionError" else Except.ok (a / b)

/-- The TDs/rec_yard computation of SkillPlayer.__init__ (skill_player.py
lines 149-169): parse receiving yards (float, default 0); assert it is a
float (the int default 0 fails the assert); when it is at most 0 store
ratio 0, else parse receiving touchdowns (int, default 0), assert, and
divide. -/
def recTdsPerYard (row : List Cell) : Except String ℚ :=
  match fetch_data_stat row "rec_yds" (StatValue.intVal 0) DType.float false with
  | Except.error e => Except.error e
  | Except.ok (StatValue.floatVal rec_yds) =>
      if rec_yds ≤ 0 then Except.ok 0
      else
        match fetch_data_stat row "rec_td" (StatValue.intVal 0) DType.int false with
        | Except.error e => Except.error e
        | Except.ok (StatValue.intVal rec_td) => pyDiv (rec_td : ℚ) rec_yds
        | Except.ok _ => Except.error "AssertionError"
  | Except.ok _ => Except.error "AssertionError"

/-- The tds/rush_yard computation of SkillPlayer.__init__ (skill_player.py
lines 193-213), identical in shape to the receiving one. -/
def rushTdsPerYard (row : List Cell) : Except String ℚ :=
  match fetch_data_stat row "rush_yds" (StatValue.intVal 0) DType.float false with
  | Except.error e => Except.error e
  | Except.ok (StatValue.floatVal rush_yds) =>
      if rush_yds ≤ 0 then Except.ok 0
      else
        match fetch_data_stat row "rush_td" (StatValue.intVal 0) DType.int false with
        | Except.error e => Except.error e
        | Except.ok (StatValue.intVal rush_td) => pyDiv (rush_td : ℚ) rush_yds
        | Except.ok _ => Except.error "AssertionError"
  | Except.ok _ => Except.error "AssertionError"

/-- The while loop of user_prompting.prompt_for_stat (user_prompting.py lines
3-11), with the user's typed answers as a list of strings and the dtype
conversion as conv (none models a ValueError).  The Python variable
stat_value starts as None, is overwritten by the raw input string, then by
the converted value when the conversion succeeds, which ends the loop.
Returns the value of stat_value at loop exit together with the unread
inputs; none when the input stream is exhausted before the loop exits. -/
def promptLoopAux {V : Type} (conv : String → Option V)
    (stat_value : Option (String ⊕ V)) :
    List String → Option ((Option (String ⊕ V)) × List String)
  | [] => none
  | s :: rest =>
      match conv s with
      | some v => some (some (Sum.inr v), rest)
      | none => promptLoopAux conv (some (Sum.inl s)) rest

/-- user_prompting.prompt_for_stat (user_prompting.py lines 1-14): run the
prompt loop starting from stat_value = None, then raise ValueError when
stat_value is still None, else return it (an inl value would be the raw
string Python would return if the loop could exit without converting). -/
def prompt_for_stat {V : Type} (conv : String → Option V) (inputs : List String) :
    Option (Except String ((String ⊕ V) × List String)) :=
  match promptLoopAux conv none inputs with
  | none => none
  | some (none, _) => some (Except.error "Stat value not captured")
  | some (some x, rest) => some (Except.ok (x, rest))

/-- The run/pass percentage while loop of Team.project (teams.py lines
132-146): starting from run_percent = 0 and pass_percent = 0, while the two
do not sum to 100, prompt for both (int dtype) again; the asserts after each
prompt fail if prompt_for_stat were ever to return a raw string.  Fuel
bounds the iterations so the model is total; project passes enough fuel for
the given input list, and the loop consumes at least two inputs per
iteration. -/
def percentLoop : Nat → List String → Int → Int →
    Option (Except String (Int × Int × List String))
  | 0, _, _, _ => none
  | Nat.succ fuel, inputs, run_percent, pass_percent =>
      if run_percent + pass_percent = 100 then
        some (Except.ok (run_percent, pass_percent, inputs))
      else
        match prompt_for_stat pyInt inputs with
        | none => none
        | some (Except.error e) => some (Except.error e)
        | some (Except.ok (Sum.inl _, _)) => some (Except.error "AssertionError")
        | some (Except.ok (Sum.inr r, rest)) =>
            match prompt_for_stat pyInt rest with
            | none => none
            | some (Except.error e) => some (Except.error e)
            | some (Except.ok (Sum.inl _, _)) => some (Except.error "AssertionError")
            | some (Except.ok (Sum.inr p, rest2)) => percentLoop fuel rest2 r p

/-- Team.project (teams.py lines 113-146): prompt for total plays, then run
the percentage loop from 0/0.  Returns the stored total_plays, run_percent
and pass_percent and the unread inputs. -/
def project (inputs : List String) :
    Option (Except String ((String ⊕ Int) × Int × Int × List String)) :=
  match prompt_for_stat pyInt inputs with
  | none => none
  | some (Except.error e) => some (Except.error e)
  | some (Except.ok (t, rest)) =>
      match percentLoop (rest.length + 1) rest 0 0 with
      | none => none
      | some (Except.error e) => some (Except.error e)
      | some (Except.ok (r, p, rest2)) => some (Except.ok (t, r, p, rest2))

/-- League-wide scoring settings (cli.py lines 44-49). -/
def PASS_TD : ℚ := 6

def PASS_YD : ℚ := 0.04

def RUSH_REC_TD : ℚ := 6

def RUSH_REC_YD : ℚ := 0.1

def INTERCEPTION : ℚ := -2

def REC : ℚ := 1

/-- A row of a team sheet as fill_team_stats sees it: every numeric column
is an Option rational, none standing for a missing value (pandas NaN). -/
structure PlayerRow where
  pos : Option String
  player_name : Option String
  games_started : Option ℚ
  rush_share : Option ℚ
  yards_per_carry : Option ℚ
  tds_per_rush_yard : Option ℚ
  target_share : Option ℚ
  catch_percentage : Option ℚ
  yards_per_catch : Option ℚ
  tds_per_receiving_yard : Option ℚ
  interception_pct : Option ℚ
  total_plays : Option ℚ
  run_plays : Option ℚ
  pass_plays : Option ℚ
  carries : Option ℚ
  rushing_yards : Option ℚ
  rushing_tds : Option ℚ
  targets : Option ℚ
  receptions : Option ℚ
  receiving_yards : Option ℚ
  receiving_tds : Option ℚ
  passing_attempts : Option ℚ
  interceptions : Option ℚ
  completions : Option ℚ
  completion_pct : Option ℚ
  passing_yards : Option ℚ
  passing_tds : Option ℚ
  passing_td_pct : Option ℚ
  fantasy_points : Option ℚ
deriving Repr, DecidableEq

/-- A row with every column missing. -/
def emptyRow : PlayerRow :=
  { pos := none, player_name := none, games_started := none, rush_share := none
    yards_per_carry := none, tds_per_rush_yard := none, target_share := none
    catch_percentage := none, yards_per_catch := none, tds_per_receiving_yard := none
    interception_pct := none, total_plays := none, run_plays := none
    pass_plays := none, carries := none, rushing_yards := none, rushing_tds := none
    targets := none, receptions := none, receiving_yards := none
    receiving_tds := none, passing_attempts := none, interceptions := none
    completions := none, completion_pct := none, passing_yards := none
    passing_tds := none, passing_td_pct := none, fantasy_points := none }

instance : Inhabited PlayerRow := ⟨emptyRow⟩

/-- NaN-propagating multiplication of pandas columns. -/
def oMul (x y : Option ℚ) : Option ℚ :=
  match x, y with
  | some a, some b => some (a * b)
  | _, _ => none

/-- NaN-propagating division.  pandas yields inf or NaN on a zero divisor
rather than raising; both are modelled as a missing value, which is sound
here because no such quotient flows into the Fantasy Points column. -/
def oDiv (x y : Option ℚ) : Option ℚ :=
  match x, y with
  | some a, some b => if b = 0 then none else some (a / b)
  | _, _ => none

/-- Series.sum with pandas default skipna: missing entries count as 0. -/
def oSum (l : List (Option ℚ)) : ℚ :=
  (l.map (fun x => x.getD 0)).sum

/-- The Other Players remainder row inserted by fill_team_stats (cli.py lines
109-126): fixed position, name, games started and efficiency numbers, with
rush and target shares equal to 100 minus the column sums over the rows
already present. -/
def otherPlayersRow (rows : List PlayerRow) : PlayerRow :=
  { emptyRow with
    pos := some "WR/RB/TE"
    player_name := some "Other Players"
    games_started := some 17
    rush_share := some (100 - oSum (rows.map (fun r => r.rush_share)))
    yards_per_carry := some 4.2
    tds_per_rush_yard := some 0.006
    target_share := some (100 - oSum (rows.map (fun r => r.target_share)))
    catch_percentage := some 62
    yards_per_catch := some 11
    tds_per_receiving_yard := some 0.006 }

/-- The rushing and receiving column computations of fill_team_stats (cli.py
lines 128-139), columnwise on one row; run_plays0 and pass_plays0 are the
scalars read from row 0 of the sheet. -/
def rushRecvStep (run_plays0 pass_plays0 : Option ℚ) (r : PlayerRow) : PlayerRow :=
  let carries := oMul (oDiv r.rush_share (some 100)) run_plays0
  let rushing_yards := oMul r.yards_per_carry carries
  let rushing_tds := oMul rushing_yards r.tds_per_rush_yard
  let targets := oMul (oDiv r.target_share (some 100)) pass_plays0
  let receptions := oDiv (oMul targets r.catch_percentage) (some 100)
  let receiving_yards := oMul receptions r.yards_per_catch
  let receiving_tds := oMul receiving_yards r.tds_per_receiving_yard
  { r with
    carries := carries, rushing_yards := rushing_yards, rushing_tds := rushing_tds
    targets := targets, receptions := receptions
    receiving_yards := receiving_yards, receiving_tds := receiving_tds }

/-- The QB-only passing column computations of fill_team_stats (cli.py lines
141-169): rows whose Pos is not QB keep their prior column values; recSum,
recYdsSum and recTdsSum are the receptions, receiving yards and receiving
TDs column sums taken after the rushing/receiving step. -/
def passingStep (pass_plays0 : Option ℚ) (recSum recYdsSum recTdsSum : ℚ)
    (r : PlayerRow) : PlayerRow :=
  if r.pos = some "QB" then
    let passing_attempts := oMul (oDiv r.games_started (some 17)) pass_plays0
    let interceptions := oDiv (oMul passing_attempts r.interception_pct) (some 100)
    let completions := oDiv (oMul (some recSum) r.games_started) (some 17)
    let completion_pct := oMul (oDiv completions passing_attempts) (some 100)
    let passing_yards := oDiv (oMul (some recYdsSum) r.games_started) (some 17)
    let passing_tds := oDiv (oMul (some recTdsSum) r.games_started) (some 17)
    let passing_td_pct := oMul (oDiv passing_tds passing_attempts) (some 100)
    { r with
      passing_attempts := passing_attempts, interceptions := interceptions
      completions := completions, completion_pct := completion_pct
      passing_yards := passing_yards, passing_tds := passing_tds
      passing_td_pct := passing_td_pct }
  else r

/-- The Fantasy Points column of fill_team_stats (cli.py lines 171-181):
each term fillna(0)-ed and weighted by the scoring settings. -/
def fantasyStep (r : PlayerRow) : PlayerRow :=
  { r with fantasy_points := some (
      r.rushing_yards.getD 0 * RUSH_REC_YD
      + r.rushing_tds.getD 0 * RUSH_REC_TD
      + r.receptions.getD 0 * REC
      + r.receiving_yards.getD 0 * RUSH_REC_YD
      + r.receiving_tds.getD 0 * RUSH_REC_TD
      + r.interceptions.getD 0 * INTERCEPTION
      + r.passing_yards.getD 0 * PASS_YD
      + r.passing_tds.getD 0 * PASS_TD) }

/-- cli.fill_team_stats (cli.py lines 103-187) on the rows of the team's
sheet: read Run Plays and Pass Plays from row 0 (a KeyError on an empty
sheet: none), append the Other Players remainder row, compute the rushing
and receiving columns, then the QB passing columns using the post-step
receiving column sums, then the Fantasy Points column. -/
def fill_team_stats (rows : List PlayerRow) : Option (List PlayerRow) :=
  match rows with
  | [] => none
  | r0 :: _ =>
      let run_plays0 := r0.run_plays
      let pass_plays0 := r0.pass_plays
      let rows1 := rows ++ [otherPlayersRow rows]
      let rows2 := rows1.map (rushRecvStep run_plays0 pass_plays0)
      let recSum := oSum (rows2.map (fun r => r.receptions))
      let recYdsSum := oSum (rows2.map (fun r => r.receiving_yards))
      let recTdsSum := oSum (rows2.map (fun r => r.receiving_tds))
      let rows3 := rows2.map (passingStep pass_plays0 recSum recYdsSum recTdsSum)
      some (rows3.map fantasyStep)

/-- A one-row team sheet for concrete evaluation: a QB row carrying the
team-level Run Plays / Pass Plays values. -/
def qbOnlySheet : List PlayerRow :=
  [{ emptyRow with pos := some "QB", run_plays := some 500, pass_plays := some 300 }]

end Pyff

namespace Pyff

theorem cacheDiscipline_holds (fs : FS) (net : String → Response)
    (use_cache save_results : Bool) (path : List String) (url : String) :
    CacheDiscipline fs net use_cache save_results path url := by
  constructor
  · intro huc contents hfs
    subst huc
    refine ⟨by simp [fetchOrCache, hfs], ?_, by simp [fetchOrCache, hfs]⟩
    intro u
    simp [fetchOrCache, hfs]
  · intro hmiss
    have hsplit : (fetchOrCache fs net use_cache save_results path url)
        = match handle_request url (net url) with
          | (tr, Except.error e) => (tr, Except.error e)
          | (tr, Except.ok r) =>
              if save_results then
                (tr ++ [Event.writeFile path r.text, Event.parseHtml r.text],
                 Except.ok r.text)
              else
                (tr ++ [Event.parseHtml r.text], Except.ok r.text) := by
      rcases hmiss with h | h
      · subst h
        cases hfp : fs path <;> rfl
      · cases use_cache
        · rfl
        · simp only [fetchOrCache, h]
    by_cases h200 : (net url).status_code = 200
    · cases save_results
      · have hfc : fetchOrCache fs net use_cache false path url
            = ([Event.httpGet url, Event.sleepSec 6,
                Event.checkStatus (net url).status_code,
                Event.parseHtml (net url).text], Except.ok (net url).text) := by
          rw [hsplit]
          simp [handle_request, h200]
        rw [hfc]
        constructor
        · simp
        · intro body hbody
          simp only [Except.ok.injEq] at hbody
          constructor
          · intro h
            exact absurd h (by simp)
          · intro _ p c
            simp
      · have hfc : fetchOrCache fs net use_cache true path url
            = ([Event.httpGet url, Event.sleepSec 6,
                Event.checkStatus (net url).status_code,
                Event.writeFile path (net url).text,
                Event.parseHtml (net url).text], Except.ok (net url).text) := by
          rw [hsplit]
          simp [handle_request, h200]
        rw [hfc]
        constructor
        · simp
        · intro body hbody
          simp only [Except.ok.injEq] at hbody
          constructor
          · intro _
            refine ⟨3, 4, by norm_num, ?_, ?_⟩
            · simp [hbody]
            · simp [hbody]
          · intro h
            exact absurd h (by simp)
    · have hfc : fetchOrCache fs net use_cache save_results path url
          = ([Event.httpGet url, Event.sleepSec 6,
              Event.checkStatus (net url).status_code],
             Except.error (httpErrorMsg (net url).status_code)) := by
        rw [hsplit]
        simp [handle_request, h200]
      rw [hfc]
      constructor
      · simp
      · intro body hbody
        simp at hbody

end Pyff

namespace Pyff

theorem sleep_follows_get_in_trace (url : String) (code : Nat) :
    (∀ i u, [Event.httpGet url, Event.sleepSec 6, Event.checkStatus code].get? i
        = some (Event.httpGet u) →
      [Event.httpGet url, Event.sleepSec 6, Event.checkStatus code].get? (i + 1)
        = some (Event.sleepSec 6)) ∧
    (∀ i u j c, [Event.httpGet url, Event.sleepSec 6, Event.checkStatus code].get? i
        = some (Event.httpGet u) →
      [Event.httpGet url, Event.sleepSec 6, Event.checkStatus code].get? j
        = some (Event.checkStatus c) → i + 1 < j) := by
  constructor
  · intro i u h
    rcases i with _ | _ | _ | i <;> simp_all
  · intro i u j c h1 h2
    rcases i with _ | _ | _ | i <;> rcases j with _ | _ | _ | j <;> simp_all

/-- C2: handle_request raises an HTTPError exactly when the HTTP status code
is not 200, returns the response exactly when it is 200, and issues exactly
one network request (errors are not retried). -/
theorem handle_request_http_error_iff (url : String) (resp : Response) :
    ((∃ e, (handle_request url resp).2 = Except.error e) ↔ resp.status_code ≠ 200) ∧
    ((handle_request url resp).2 = Except.ok resp ↔ resp.status_code = 200) ∧
    (handle_request url resp).1.countP (fun ev => ev.isGet) = 1 := by
  by_cases h : resp.status_code = 200 <;>
    simp [handle_request, h, Event.isGet, httpErrorMsg, List.countP_cons]

theorem handle_request_http_error_iff_witness :
    ((handle_request "u" { status_code := 200, text := "b" }).2
      = Except.ok { status_code := 200, text := "b" }) ∧
    (∃ e, (handle_request "u" { status_code := 404, text := "b" }).2 = Except.error e) := by
  constructor
  · exact (handle_request_http_error_iff "u" { status_code := 200, text := "b" }).2.1.mpr rfl
  · exact (handle_request_http_error_iff "u" { status_code := 404, text := "b" }).1.mpr (by decide)

/-- C5: every HTTP GET the program issues (through handle_request or the
inline fetch of QB.__init__) is immediately followed in the effect trace by a
sleep of 6 seconds, and the sleep comes strictly before the status-code
inspection; this holds for every URL and every response, so it does not
depend on whether the request succeeded. -/
theorem every_get_followed_by_sleep (url : String) (resp : Response) :
    (∀ i u, (handle_request url resp).1.get? i = some (Event.httpGet u) →
        (handle_request url resp).1.get? (i + 1) = some (Event.sleepSec 6)) ∧
    (∀ i u j c, (handle_request url resp).1.get? i = some (Event.httpGet u) →
        (handle_request url resp).1.get? j = some (Event.checkStatus c) → i + 1 < j) ∧
    (∀ i u, (inline_fetch url resp).1.get? i = some (Event.httpGet u) →
        (inline_fetch url resp).1.get? (i + 1) = some (Event.sleepSec 6)) ∧
    (∀ i u j c, (inline_fetch url resp).1.get? i = some (Event.httpGet u) →
        (inline_fetch url resp).1.get? j = some (Event.checkStatus c) → i + 1 < j) := by
  refine ⟨?_, ?_, ?_, ?_⟩
  · exact (sleep_follows_get_in_trace url resp.status_code).1
  · exact (sleep_follows_get_in_trace url resp.status_code).2
  · exact (sleep_follows_get_in_trace url resp.status_code).1
  · exact (sleep_follows_get_in_trace url resp.status_code).2

theorem every_get_followed_by_sleep_witness :
    (handle_request "u" { status_code := 500, text := "b" }).1.get? 1
      = some (Event.sleepSec 6) :=
  (every_get_followed_by_sleep "u" { status_code := 500, text := "b" }).1 0 "u" rfl

/-- C1: for every team and every year among the last three seasons plus the
current one, the Team.__init__ page acquisition for that year (and likewise
the Team.get_player roster acquisition) follows the cache discipline: with
use_cache and an existing cache file it reads the file and issues no network
request; otherwise it fetches over the network and, when save_results, writes
the fetched body to exactly that cache path before parsing. -/
theorem team_cache_discipline (fs : FS) (net : String → Response)
    (use_cache save_results : Bool) (team : String) (current_year year : Nat)
    (hy : year ∈ teamYears current_year) :
    CacheDiscipline fs net use_cache save_results
      (teamPagePath team year) (teamPageUrl team year) ∧
    CacheDiscipline fs net use_cache save_results
      (rosterPath team current_year) (rosterUrl team current_year) ∧
    (year, fetchOrCache fs net use_cache save_results
        (teamPagePath team year) (teamPageUrl team year))
      ∈ teamInitAcquire fs net use_cache save_results team current_year ∧
    getPlayerAcquire fs net use_cache save_results team current_year
      = fetchOrCache fs net use_cache save_results
          (rosterPath team current_year) (rosterUrl team current_year) := by
  refine ⟨cacheDiscipline_holds fs net use_cache save_results _ _,
         cacheDiscipline_holds fs net use_cache save_results _ _, ?_, rfl⟩
  exact List.mem_map_of_mem _ hy

theorem team_cache_discipline_witness :
    (fetchOrCache fsOneTeamPage netAll200 true true
      (teamPagePath "crd" 2024) (teamPageUrl "crd" 2024)).2
      = Except.ok "cachedpage" := by
  have h := (team_cache_discipline fsOneTeamPage netAll200 true true "crd" 2025 2024
    (by decide)).1
  exact (h.1 rfl "cachedpage" (by decide)).1

end Pyff

namespace Pyff

theorem roundHalfEven_intCast (n : ℤ) : roundHalfEven ((n : ℚ)) = n := by
  unfold roundHalfEven
  simp only [Int.floor_intCast, sub_self]
  norm_num

theorem pyRound2_eval_int (m : ℤ) (x : ℚ) (h : x * 100 = (m : ℚ)) :
    pyRound2 x = (m : ℚ) / 100 := by
  unfold pyRound2
  rw [h, roundHalfEven_intCast]

/-- C3 counterexample: with parsed rushing attempts 0 and passing attempts 0
for a past year, Team.__init__ does not store the claimed percentages; the
division run_plays / total_plays raises ZeroDivisionError, so the claim's
computation has a precondition after all. -/
theorem teamYearStats_zero_attempts_raises :
    teamYearStats 0 0 = Except.error "ZeroDivisionError" := rfl

/-- C3 (amended): for every past year whose parsed rushing attempts r and
passing attempts p satisfy r + p different from 0, the stored total_plays is
r + p, run_percent is round(100 * r / (r + p), 2) and pass_percent is
round(100 * p / (r + p), 2); when r + p = 0 the code raises
ZeroDivisionError instead. -/
theorem teamYearStats_formulas (r p : Int) (h : r + p ≠ 0) :
    teamYearStats r p = Except.ok
      { total_plays := r + p
        run_percent := pyRound2 (100 * (r : ℚ) / ((r : ℚ) + (p : ℚ)))
        pass_percent := pyRound2 (100 * (p : ℚ) / ((r : ℚ) + (p : ℚ)))
        run_plays := r
        pass_plays := p } := by
  simp only [teamYearStats, if_neg h]
  have h1 : ((r : ℚ) / (((r + p : Int)) : ℚ) * 100)
      = 100 * (r : ℚ) / ((r : ℚ) + (p : ℚ)) := by
    push_cast
    ring
  have h2 : ((p : ℚ) / (((r + p : Int)) : ℚ) * 100)
      = 100 * (p : ℚ) / ((r : ℚ) + (p : ℚ)) := by
    push_cast
    ring
  rw [h1, h2]

theorem teamYearStats_formulas_witness :
    (300 : Int) + 200 ≠ 0 ∧
    teamYearStats 300 200 = Except.ok
      { total_plays := 500, run_percent := 60, pass_percent := 40,
        run_plays := 300, pass_plays := 200 } := by
  refine ⟨by decide, ?_⟩
  have h := teamYearStats_formulas 300 200 (by decide)
  rw [h]
  have e1 : pyRound2 (100 * ((300 : Int) : ℚ) / (((300 : Int) : ℚ) + ((200 : Int) : ℚ)))
      = (60 : ℚ) := by
    have := pyRound2_eval_int 6000 (100 * ((300 : Int) : ℚ) / (((300 : Int) : ℚ) + ((200 : Int) : ℚ)))
      (by push_cast; norm_num)
    rw [this]
    norm_num
  have e2 : pyRound2 (100 * ((200 : Int) : ℚ) / (((300 : Int) : ℚ) + ((200 : Int) : ℚ)))
      = (40 : ℚ) := by
    have := pyRound2_eval_int 4000 (100 * ((200 : Int) : ℚ) / (((300 : Int) : ℚ) + ((200 : Int) : ℚ)))
      (by push_cast; norm_num)
    rw [this]
    norm_num
  rw [e1, e2]
  norm_num

/-- C4: when the spreadsheet file exists and the team's sheet already holds
k at least 1 rows, Team.save_projections rewrites that sheet to exactly the k
existing rows unchanged followed by one new row whose Total Plays is the
projected total_plays, Run Plays is round(total_plays * run_percent / 100, 2)
and Pass Plays is round(total_plays * pass_percent / 100, 2); every other
sheet of the workbook is left unmodified. -/
theorem save_projections_appends (wb : Workbook) (st : TeamProjState)
    (rows : List ProjRow) (hsheet : wb (pyCapitalize st.team_name) = some rows)
    (hk : 1 ≤ rows.length) :
    save_projections (some wb) st (pyCapitalize st.team_name)
      = some (rows ++ [newProjRow st]) ∧
    (∀ s, s ≠ pyCapitalize st.team_name → save_projections (some wb) st s = wb s) ∧
    (newProjRow st).total_plays = some (st.total_plays : ℚ) ∧
    (newProjRow st).run_plays
      = some (pyRound2 ((st.total_plays : ℚ) * (st.run_percent : ℚ) / 100)) ∧
    (newProjRow st).pass_plays
      = some (pyRound2 ((st.total_plays : ℚ) * (st.pass_percent : ℚ) / 100)) := by
  have hlen : rows.length + 1 > 1 := by omega
  refine ⟨?_, ?_, rfl, rfl, rfl⟩
  · simp [save_projections, hsheet, hlen]
  · intro s hs
    simp [save_projections, hsheet, hlen, hs]

theorem save_projections_appends_witness :
    save_projections (some wbTwoSheets)
      { team_name := "crd", total_plays := 500, run_percent := 60, pass_percent := 40 } "Crd"
      = some ([{ total_plays := some 400, run_plays := some 150, pass_plays := some 250 }] ++
          [newProjRow { team_name := "crd", total_plays := 500, run_percent := 60, pass_percent := 40 }]) ∧
    save_projections (some wbTwoSheets)
      { team_name := "crd", total_plays := 500, run_percent := 60, pass_percent := 40 } "Sea"
      = wbTwoSheets "Sea" := by
  have h := save_projections_appends wbTwoSheets
    { team_name := "crd", total_plays := 500, run_percent := 60, pass_percent := 40 }
    [{ total_plays := some 400, run_plays := some 150, pass_plays := some 250 }]
    (by decide) (by decide)
  exact ⟨h.1, h.2.1 "Sea" (by decide)⟩

end Pyff

namespace Pyff

/-- C6 counterexample: for a row whose matching element has empty text, with
a numeric stat_dtype and return_html true, fetch_data_stat returns the HTML
tag, not stat_default_value: the return_html check precedes the empty-text
default in the code, while the claim orders the empty-text default first. -/
theorem fetch_data_stat_empty_html_counterexample :
    fetch_data_stat [{ data_stat := "x", text := "" }] "x"
        (StatValue.strVal "") DType.int true
      = Except.ok (StatValue.htmlTag { data_stat := "x", text := "" }) ∧
    StatValue.htmlTag { data_stat := "x", text := "" } ≠ StatValue.strVal "" := by
  exact ⟨rfl, by decide⟩

/-- C6 (amended): fetch_data_stat returns stat_default_value when the row
contains no element whose data-stat attribute equals stat_html_attribute;
when return_html is true it returns the found HTML tag itself (this check
precedes the empty-text default, so it wins even for empty numeric text);
otherwise it returns stat_default_value when the element's text is the empty
string and stat_dtype is int or float, and else the text converted to
stat_dtype, the ValueError propagating when the conversion fails. -/
theorem fetch_data_stat_cases (row : List Cell) (attr : String)
    (dflt : StatValue) (dtype : DType) (rh : Bool) :
    (row.find? (fun c => c.data_stat = attr) = none →
      fetch_data_stat row attr dflt dtype rh = Except.ok dflt) ∧
    (∀ cell, row.find? (fun c => c.data_stat = attr) = some cell →
      rh = true →
      fetch_data_stat row attr dflt dtype rh = Except.ok (StatValue.htmlTag cell)) ∧
    (∀ cell, row.find? (fun c => c.data_stat = attr) = some cell →
      rh = false → cell.text = "" → (dtype = DType.int ∨ dtype = DType.float) →
      fetch_data_stat row attr dflt dtype rh = Except.ok dflt) ∧
    (∀ cell, row.find? (fun c => c.data_stat = attr) = some cell →
      rh = false → ¬(cell.text = "" ∧ (dtype = DType.int ∨ dtype = DType.float)) →
      (∀ v, convert dtype cell.text = some v →
          fetch_data_stat row attr dflt dtype rh = Except.ok v) ∧
      (convert dtype cell.text = none →
          fetch_data_stat row attr dflt dtype rh = Except.error "ValueError")) := by
  refine ⟨?_, ?_, ?_, ?_⟩
  · intro hfind
    simp [fetch_data_stat, hfind]
  · intro cell hfind hrh
    simp [fetch_data_stat, hfind, hrh]
  · intro cell hfind hrh htext hdt
    simp [fetch_data_stat, hfind, hrh, htext, hdt]
  · intro cell hfind hrh hnot
    constructor
    · intro v hconv
      simp [fetch_data_stat, hfind, hrh, hnot, hconv]
    · intro hconv
      simp [fetch_data_stat, hfind, hrh, hnot, hconv]

theorem fetch_data_stat_cases_witness :
    fetch_data_stat [{ data_stat := "a", text := "7" }] "a"
        (StatValue.strVal "") DType.int false
      = Except.ok (StatValue.intVal 7) := by
  have h := (fetch_data_stat_cases [{ data_stat := "a", text := "7" }] "a"
    (StatValue.strVal "") DType.int false).2.2.2
    { data_stat := "a", text := "7" } (by decide) rfl (by decide)
  exact h.1 (StatValue.intVal 7) (by decide)

theorem fetch_data_stat_error_msg (row : List Cell) (attr : String)
    (dflt : StatValue) (dtype : DType) (rh : Bool) (e : String)
    (h : fetch_data_stat row attr dflt dtype rh = Except.error e) :
    e = "ValueError" := by
  revert h
  unfold fetch_data_stat
  cases hE : row.find? (fun c => c.data_stat = attr) with
  | none =>
    intro h
    exact absurd h (by simp)
  | some cell =>
    by_cases hrh : rh
    · simp only [hrh, if_true]
      intro h
      exact absurd h (by simp)
    · simp only [hrh, if_false]
      by_cases hempty : cell.text = "" ∧ (dtype = DType.int ∨ dtype = DType.float)
      · rw [if_pos hempty]
        intro h
        exact absurd h (by simp)
      · rw [if_neg hempty]
        cases hc : convert dtype cell.text with
        | none =>
          intro h
          simpa using h.symm
        | some v =>
          intro h
          exact absurd h (by simp)

end Pyff

namespace Pyff

/-- C10: in SkillPlayer.__init__ the TDs/rec_yard and tds/rush_yard ratios
are computed by division only when the parsed yards value is strictly
positive; when it is at most 0 the ratio is stored as 0; consequently
neither computation can raise ZeroDivisionError on any parsed player page. -/
theorem skill_player_ratio_guard (row : List Cell) :
    (∀ yds, fetch_data_stat row "rec_yds" (StatValue.intVal 0) DType.float false
        = Except.ok (StatValue.floatVal yds) → yds ≤ 0 →
      recTdsPerYard row = Except.ok 0) ∧
    (∀ yds td, fetch_data_stat row "rec_yds" (StatValue.intVal 0) DType.float false
        = Except.ok (StatValue.floatVal yds) → 0 < yds →
      fetch_data_stat row "rec_td" (StatValue.intVal 0) DType.int false
        = Except.ok (StatValue.intVal td) →
      recTdsPerYard row = Except.ok ((td : ℚ) / yds)) ∧
    recTdsPerYard row ≠ Except.error "ZeroDivisionError" ∧
    (∀ yds, fetch_data_stat row "rush_yds" (StatValue.intVal 0) DType.float false
        = Except.ok (StatValue.floatVal yds) → yds ≤ 0 →
      rushTdsPerYard row = Except.ok 0) ∧
    (∀ yds td, fetch_data_stat row "rush_yds" (StatValue.intVal 0) DType.float false
        = Except.ok (StatValue.floatVal yds) → 0 < yds →
      fetch_data_stat row "rush_td" (StatValue.intVal 0) DType.int false
        = Except.ok (StatValue.intVal td) →
      rushTdsPerYard row = Except.ok ((td : ℚ) / yds)) ∧
    rushTdsPerYard row ≠ Except.error "ZeroDivisionError" := by
  refine ⟨?_, ?_, ?_, ?_, ?_, ?_⟩
  · intro yds h hle
    simp [recTdsPerYard, h, hle]
  · intro yds td h hpos htd
    have hle : ¬ yds ≤ 0 := not_le.mpr hpos
    have hne : yds ≠ 0 := ne_of_gt hpos
    simp [recTdsPerYard, h, hle, htd, pyDiv, hne]
  · unfold recTdsPerYard
    cases h1 : fetch_data_stat row "rec_yds" (StatValue.intVal 0) DType.float false with
    | error e =>
      have := fetch_data_stat_error_msg row "rec_yds" (StatValue.intVal 0) DType.float false e h1
      simp [this]
    | ok v =>
      cases v with
      | floatVal yds =>
        by_cases hle : yds ≤ 0
        · simp [hle]
        · simp only [hle, if_false]
          cases h2 : fetch_data_stat row "rec_td" (StatValue.intVal 0) DType.int false with
          | error e =>
            have := fetch_data_stat_error_msg row "rec_td" (StatValue.intVal 0) DType.int false e h2
            simp [this]
          | ok w =>
            cases w with
            | intVal td =>
              have hne : yds ≠ 0 := fun h => hle (le_of_eq h)
              simp [pyDiv, hne]
            | strVal s => simp
            | floatVal q => simp
            | htmlTag c => simp
      | strVal s => simp
      | intVal n => simp
      | htmlTag c => simp
  · intro yds h hle
    simp [rushTdsPerYard, h, hle]
  · intro yds td h hpos htd
    have hle : ¬ yds ≤ 0 := not_le.mpr hpos
    have hne : yds ≠ 0 := ne_of_gt hpos
    simp [rushTdsPerYard, h, hle, htd, pyDiv, hne]
  · unfold rushTdsPerYard
    cases h1 : fetch_data_stat row "rush_yds" (StatValue.intVal 0) DType.float false with
    | error e =>
      have := fetch_data_stat_error_msg row "rush_yds" (StatValue.intVal 0) DType.float false e h1
      simp [this]
    | ok v =>
      cases v with
      | floatVal yds =>
        by_cases hle : yds ≤ 0
        · simp [hle]
        · simp only [hle, if_false]
          cases h2 : fetch_data_stat row "rush_td" (StatValue.intVal 0) DType.int false with
          | error e =>
            have := fetch_data_stat_error_msg row "rush_td" (StatValue.intVal 0) DType.int false e h2
            simp [this]
          | ok w =>
            cases w with
            | intVal td =>
              have hne : yds ≠ 0 := fun h => hle (le_of_eq h)
              simp [pyDiv, hne]
            | strVal s => simp
            | floatVal q => simp
            | htmlTag c => simp
      | strVal s => simp
      | intVal n => simp
      | htmlTag c => simp

theorem skill_player_ratio_guard_witness :
    recTdsPerYard [{ data_stat := "rec_yds", text := "0" },
                   { data_stat := "rec_td", text := "0" }] = Except.ok 0 := by
  have h := (skill_player_ratio_guard
    [{ data_stat := "rec_yds", text := "0" },
     { data_stat := "rec_td", text := "0" }]).1
  refine h 0 ?_ le_rfl
  have hfind : List.find? (fun c : Cell => c.data_stat = "rec_yds")
      ([{ data_stat := "rec_yds", text := "0" },
        { data_stat := "rec_td", text := "0" }] : List Cell)
      = some { data_stat := "rec_yds", text := "0" } := by decide
  have hpy : pyFloat "0" = some ((0 : ℚ) + (0 : ℚ) / (10 : ℚ) ^ (0 : ℕ)) := rfl
  have hconv : convert DType.float "0" = some (StatValue.floatVal 0) := by
    show (pyFloat "0").map StatValue.floatVal = some (StatValue.floatVal 0)
    rw [hpy]
    simp
  simp [fetch_data_stat, hfind, hconv]

end Pyff

namespace Pyff

theorem promptLoopAux_findSome {V : Type} (conv : String → Option V) :
    ∀ (inputs : List String) (sv : Option (String ⊕ V)),
      (∀ v, inputs.findSome? conv = some v →
        ∃ rest, promptLoopAux conv sv inputs = some (some (Sum.inr v), rest)) ∧
      (inputs.findSome? conv = none → promptLoopAux conv sv inputs = none) := by
  intro inputs
  induction inputs with
  | nil =>
    intro sv
    constructor
    · intro v h
      simp [List.findSome?] at h
    · intro _
      rfl
  | cons s rest ih =>
    intro sv
    cases hc : conv s with
    | some v0 =>
      constructor
      · intro v h
        simp [List.findSome?, hc] at h
        exact ⟨rest, by simp [promptLoopAux, hc, h]⟩
      · intro h
        simp [List.findSome?, hc] at h
    | none =>
      constructor
      · intro v h
        simp only [List.findSome?, hc] at h
        obtain ⟨r, hr⟩ := (ih (some (Sum.inl s))).1 v h
        exact ⟨r, by simp [promptLoopAux, hc, hr]⟩
      · intro h
        simp only [List.findSome?, hc] at h
        have := (ih (some (Sum.inl s))).2 h
        simp [promptLoopAux, hc, this]

theorem promptLoopAux_exit_converted {V : Type} (conv : String → Option V) :
    ∀ (inputs : List String) (sv q : Option (String ⊕ V)) (rest : List String),
      promptLoopAux conv sv inputs = some (q, rest) → ∃ v, q = some (Sum.inr v) := by
  intro inputs
  induction inputs with
  | nil =>
    intro sv q rest h
    simp [promptLoopAux] at h
  | cons s tl ih =>
    intro sv q rest h
    cases hc : conv s with
    | some v0 =>
      simp [promptLoopAux, hc] at h
      exact ⟨v0, h.1.symm⟩
    | none =>
      simp only [promptLoopAux, hc] at h
      exact ih (some (Sum.inl s)) q rest h

/-- C9: for every dtype conversion that yields a genuine value when it does
not raise (as int and float do) and every input sequence, prompt_for_stat
returns the conversion of the first convertible input string, re-prompting
past every earlier invalid one, and the trailing raise ValueError branch
(stat_value is None after the loop) is unreachable: the result is never that
error. -/
theorem prompt_for_stat_first_success {V : Type} (conv : String → Option V)
    (inputs : List String) :
    (∀ v, inputs.findSome? conv = some v →
      ∃ rest, prompt_for_stat conv inputs = some (Except.ok (Sum.inr v, rest))) ∧
    (∀ e, prompt_for_stat conv inputs ≠ some (Except.error e)) := by
  constructor
  · intro v h
    obtain ⟨rest, hr⟩ := (promptLoopAux_findSome conv inputs none).1 v h
    exact ⟨rest, by simp [prompt_for_stat, hr]⟩
  · intro e h
    unfold prompt_for_stat at h
    cases hp : promptLoopAux conv none inputs with
    | none => rw [hp] at h; simp at h
    | some pr =>
      obtain ⟨q, rest⟩ := pr
      obtain ⟨v, hv⟩ := promptLoopAux_exit_converted conv inputs none q rest hp
      rw [hp, hv] at h
      simp at h

theorem prompt_for_stat_first_success_witness :
    prompt_for_stat pyInt ["abc", "42"]
      = some (Except.ok (Sum.inr (42 : Int), ([] : List String))) := by
  obtain ⟨rest, hrest⟩ :=
    (prompt_for_stat_first_success pyInt ["abc", "42"]).1 42 (by decide)
  exact rfl

theorem percentLoop_sum (fuel : Nat) :
    ∀ (inputs : List String) (run_percent pass_percent r p : Int) (rest : List String),
      percentLoop fuel inputs run_percent pass_percent
        = some (Except.ok (r, p, rest)) →
      r + p = 100 ∧
      ((r, p, rest) = (run_percent, pass_percent, inputs) ∨
        ∃ mid mid2, prompt_for_stat pyInt mid = some (Except.ok (Sum.inr r, mid2)) ∧
          prompt_for_stat pyInt mid2 = some (Except.ok (Sum.inr p, rest))) := by
  induction fuel with
  | zero =>
    intro inputs run pass r p rest h
    simp [percentLoop] at h
  | succ fuel ih =>
    intro inputs run pass r p rest h
    by_cases h100 : run + pass = 100
    · rw [percentLoop, if_pos h100] at h
      simp only [Option.some.injEq, Except.ok.injEq, Prod.mk.injEq] at h
      obtain ⟨hr, hp, hrest⟩ := h
      subst hr
      subst hp
      subst hrest
      exact ⟨h100, Or.inl rfl⟩
    · rw [percentLoop, if_neg h100] at h
      split at h
      · simp at h
      · simp at h
      · simp at h
      · rename_i r1 rest1 heq1
        split at h
        · simp at h
        · simp at h
        · simp at h
        · rename_i p1 rest2 heq2
          have hrec := ih rest2 r1 p1 r p rest h
          rcases hrec with ⟨hsum, hcase⟩
          refine ⟨hsum, Or.inr ?_⟩
          rcases hcase with heq | ⟨mid, mid2, hm1, hm2⟩
          · simp only [Prod.mk.injEq] at heq
            obtain ⟨hr, hp, hrest⟩ := heq
            refine ⟨inputs, rest1, ?_, ?_⟩
            · rw [hr]
              exact heq1
            · rw [hp, hrest]
              exact heq2
          · exact ⟨mid, mid2, hm1, hm2⟩

/-- C8: whenever Team.project returns normally, the stored run_percent and
pass_percent sum to exactly 100 and are the two integers most recently
entered: they are the results of the final two prompts, whose leftover input
stream is the one project returns with.  (The loop starts from 0/0, which
does not sum to 100, so at least one iteration always runs.) -/
theorem project_percent_sum (inputs : List String) (t : String ⊕ Int)
    (r p : Int) (rest : List String)
    (h : project inputs = some (Except.ok (t, r, p, rest))) :
    r + p = 100 ∧
    ∃ mid mid2, prompt_for_stat pyInt mid = some (Except.ok (Sum.inr r, mid2)) ∧
      prompt_for_stat pyInt mid2 = some (Except.ok (Sum.inr p, rest)) := by
  unfold project at h
  split at h
  · simp at h
  · simp at h
  · rename_i t0 rest0 heq1
    split at h
    · simp at h
    · simp at h
    · rename_i r0 p0 rest1 heq2
      simp only [Option.some.injEq, Except.ok.injEq, Prod.mk.injEq] at h
      obtain ⟨ht, hr, hp, hrest⟩ := h
      subst hr
      subst hp
      subst hrest
      have hspec := percentLoop_sum (rest0.length + 1) rest0 0 0 r0 p0 rest1 heq2
      rcases hspec with ⟨hsum, hcase⟩
      refine ⟨hsum, ?_⟩
      rcases hcase with heq | hex
      · simp only [Prod.mk.injEq] at heq
        obtain ⟨hr0, hp0, _⟩ := heq
        rw [hr0, hp0] at hsum
        norm_num at hsum
      · exact hex

theorem project_percent_sum_witness :
    (60 : Int) + 40 = 100 ∧
    ∃ mid mid2, prompt_for_stat pyInt mid = some (Except.ok (Sum.inr (60 : Int), mid2)) ∧
      prompt_for_stat pyInt mid2 = some (Except.ok (Sum.inr (40 : Int), ([] : List String))) :=
  project_percent_sum ["500", "60", "40"] (Sum.inr 500) 60 40 [] rfl

end Pyff

namespace Pyff

/-- C7: for every row of a team sheet processed by fill_team_stats, the
resulting Fantasy Points value equals 0.1 * Rushing Yards + 6 * Rushing TDs
+ 1 * Receptions + 0.1 * Receiving Yards + 6 * Receiving TDs
+ (-2) * Interceptions + 0.04 * Passing Yards + 6 * Passing TDs, with every
missing (NaN) term treated as 0. -/
theorem fill_team_stats_fantasy_points (rows out : List PlayerRow)
    (hout : fill_team_stats rows = some out) :
    ∀ r ∈ out, r.fantasy_points = some (
      0.1 * r.rushing_yards.getD 0 + 6 * r.rushing_tds.getD 0
      + 1 * r.receptions.getD 0 + 0.1 * r.receiving_yards.getD 0
      + 6 * r.receiving_tds.getD 0 + (-2) * r.interceptions.getD 0
      + 0.04 * r.passing_yards.getD 0 + 6 * r.passing_tds.getD 0) := by
  cases rows with
  | nil => simp [fill_team_stats] at hout
  | cons r0 tl =>
    simp only [fill_team_stats, Option.some.injEq] at hout
    subst hout
    intro r hr
    simp only [List.mem_map] at hr
    obtain ⟨s, hs, rfl⟩ := hr
    show (fantasyStep s).fantasy_points = some _
    simp only [fantasyStep, RUSH_REC_YD, RUSH_REC_TD, REC, INTERCEPTION, PASS_YD, PASS_TD]
    congr 1
    ring

theorem fill_team_stats_fantasy_points_witness :
    ((fill_team_stats qbOnlySheet).getD []).head!.fantasy_points
      = some (0.1 * ((fill_team_stats qbOnlySheet).getD []).head!.rushing_yards.getD 0
        + 6 * ((fill_team_stats qbOnlySheet).getD []).head!.rushing_tds.getD 0
        + 1 * ((fill_team_stats qbOnlySheet).getD []).head!.receptions.getD 0
        + 0.1 * ((fill_team_stats qbOnlySheet).getD []).head!.receiving_yards.getD 0
        + 6 * ((fill_team_stats qbOnlySheet).getD []).head!.receiving_tds.getD 0
        + (-2) * ((fill_team_stats qbOnlySheet).getD []).head!.interceptions.getD 0
        + 0.04 * ((fill_team_stats qbOnlySheet).getD []).head!.passing_yards.getD 0
        + 6 * ((fill_team_stats qbOnlySheet).getD []).head!.passing_tds.getD 0) := by
  refine fill_team_stats_fantasy_points qbOnlySheet
    ((fill_team_stats qbOnlySheet).getD []) rfl
    ((fill_team_stats qbOnlySheet).getD []).head! (List.head!_mem_self ?_)
  simp [qbOnlySheet, fill_team_stats]

end Pyff
